import Mathlib

/-!
Verification of the scoring/filtering core of the `ma-target-discovery`
repository (files `app/score/scorer.py`, `app/score/filters.py`,
`app/score/evidence.py`, and the data model in `app/models/criteria.py`,
`app/models/candidate.py`).

Embedding conventions:
* Python `float` is modelled as `ℚ` (exact arithmetic; the scoring core only
  adds, multiplies, divides and compares).
* Python `int` is modelled as `Int`, `Optional[T]` as `Option T`.
* Python `list` is `List`; `dict` (insertion ordered) is an association
  `List (key × value)` looked up by first match, exactly dict semantics since
  keys are unique.
* Python truthiness on optionals: `None`, `0`, `""` and `[]` are falsy; this
  is made explicit by the `truthyI` / `truthyS` helpers below.
* String case-folding (`str.lower`) is modelled with the character-wise
  ASCII `strToLower`, and `str.strip` with `strTrim`; both agree with
  Python on the ASCII inputs the claims are about.
* The namespaced evidence labels of the source (`"keyword:" + kw` and so on)
  are modelled by the structured `Criterion` type; the six source prefixes
  `industry: keyword: business_model: customer_type: compliance: signal:` are
  pairwise distinct and injective in the value, so this is a faithful
  renaming.
* The human readable filter/disqualification message strings of
  `filters.py` are modelled by the structured types `FailedFilter` and
  `DisqualReason`; each constructor records exactly the data interpolated
  into the corresponding source f-string.
-/

/-! ### Python truthiness and string helpers -/

/-- Python truthiness of an `Optional[int]`: `None` and `0` are falsy. -/
def truthyI : Option Int → Bool
  | none => false
  | some n => n != 0

/-- Python truthiness of an `Optional[str]`: `None` and `""` are falsy. -/
def truthyS : Option String → Bool
  | none => false
  | some s => s != ""

/-- Python `needle in haystack` on strings: substring containment. -/
def strContains (haystack needle : String) : Bool :=
  (List.range (haystack.data.length + 1)).any
    (fun i => needle.data.isPrefixOf (haystack.data.drop i))

/-- Python `a or b or ""` over optional strings (first truthy value). -/
def strOrD (a : Option String) (d : String) : String :=
  match a with
  | some s => if s = "" then d else s
  | none => d

/-- Python `int()` truncation toward zero, applied to a rational. -/
def pyTrunc (q : ℚ) : Int :=
  if 0 ≤ q then ⌊q⌋ else ⌈q⌉

/-- Python `str.lower()`: character-wise ASCII lowering.  This is
`strToLower` (which maps `Char.toLower` over the characters), written
directly on the character list so that terms reduce by computation. -/
def strToLower (s : String) : String :=
  String.mk (s.data.map Char.toLower)

/-- Python `str.strip()`: drop whitespace from both ends (as
`String.trim`, written on the character list). -/
def strTrim (s : String) : String :=
  String.mk (((s.data.dropWhile Char.isWhitespace).reverse.dropWhile
    Char.isWhitespace).reverse)

/-- Python `s.replace("_", " ")` — a single-character pattern, hence a
character-wise map. -/
def replaceUnderscores (s : String) : String :=
  String.mk (s.data.map fun c => if c = '_' then ' ' else c)

/-! ### Data model: `app/models/criteria.py` -/

/-- `GeographyFilter` (criteria.py): geographic constraints. -/
structure GeographyFilter where
  countries : List String
  regions : List String
  exclude_countries : List String
  headquarters_only : Bool
deriving DecidableEq, Repr

/-- `SizeConstraints` (criteria.py): optional min/max bounds. -/
structure SizeConstraints where
  revenue_min : Option Int
  revenue_max : Option Int
  employees_min : Option Int
  employees_max : Option Int
  funding_min : Option Int
  funding_max : Option Int
deriving DecidableEq, Repr

/-- `BusinessModelFilter` (criteria.py). -/
structure BusinessModelFilter where
  types : List String
  exclude_types : List String
  recurring_revenue_required : Bool
deriving DecidableEq, Repr

/-- `AcquisitionCriteria` (criteria.py): the full criteria profile. -/
structure AcquisitionCriteria where
  industries_include : List String
  industries_exclude : List String
  keywords_include : List String
  keywords_exclude : List String
  geography : GeographyFilter
  size : SizeConstraints
  business_model : BusinessModelFilter
  customer_type : List String
  compliance_tags : List String
  preferred_signals : List String
  disqualifiers : List String
  dealbreakers : List String
  weights : List (String × ℚ)
deriving DecidableEq, Repr

/-- `AcquisitionCriteria.get_weight` (criteria.py line 96):
`self.weights.get(criterion, default)`. -/
def AcquisitionCriteria.get_weight
    (c : AcquisitionCriteria) (criterion : String) (default : ℚ) : ℚ :=
  (c.weights.lookup criterion).getD default

/-! ### Data model: `app/models/candidate.py`

`EnrichedCompany` extends `CandidateCompany`; fields never read by the
scoring core (`discovered_at`, `enriched_at`, `enrichment_sources`,
`founded_year`, `description`, `source_url`, `industry`, `location`,
`employee_count`) are carried where cheap and otherwise omitted.

The last four fields (`is_cannabis_industry`, `cannabis_confidence`,
`software_revenue_confidence`, `revenue_is_estimated`) are read by
`scorer.py` via attribute access although `candidate.py` does NOT declare
them on the pydantic model (they exist only on `enrich.parser.
ExtractionResult` and are never copied across), so on the real pydantic
model every such read raises `AttributeError` — the code bug recorded under
C1 (and, since `Scorer.score` therefore returns nothing, under C2 and C4).
They are modelled here as explicit fields with the pipeline defaults
(`False` / `0.0`) so that the rest of the scorer's arithmetic can still be
verified; every theorem about `Scorer.score` below is therefore a statement
about this repaired model. -/
structure EnrichedCompany where
  name : String
  domain : Option String
  website : Option String
  source : String
  headquarters : Option String
  employees_estimate : Option Int
  revenue_estimate : Option Int
  funding_total : Option Int
  business_model : Option String
  business_model_confidence : ℚ
  customer_types : List String
  industries : List String
  compliance_indicators : List String
  signals_detected : List String
  disqualifiers_detected : List String
  page_contents : List (String × String)
  extraction_confidence : ℚ
  is_cannabis_industry : Bool
  cannabis_confidence : ℚ
  software_revenue_confidence : ℚ
  revenue_is_estimated : Bool
deriving DecidableEq, Repr

/-- A minimally populated company: every optional field absent, every list
empty, every confidence `0.0` — what the enrichment layer produces for a
candidate it failed to enrich (`__main__.py` line 193). -/
def minimalCompany (name source : String) : EnrichedCompany :=
  { name := name
    domain := none
    website := none
    source := source
    headquarters := none
    employees_estimate := none
    revenue_estimate := none
    funding_total := none
    business_model := none
    business_model_confidence := 0
    customer_types := []
    industries := []
    compliance_indicators := []
    signals_detected := []
    disqualifiers_detected := []
    page_contents := []
    extraction_confidence := 0
    is_cannabis_industry := false
    cannabis_confidence := 0
    software_revenue_confidence := 0
    revenue_is_estimated := false }

/-- A criteria profile with every list empty and every bound unset
(pydantic defaults of `AcquisitionCriteria`). -/
def emptyCriteria : AcquisitionCriteria :=
  { industries_include := []
    industries_exclude := []
    keywords_include := []
    keywords_exclude := []
    geography := { countries := [], regions := [], exclude_countries := [],
                   headquarters_only := false }
    size := { revenue_min := none, revenue_max := none, employees_min := none,
              employees_max := none, funding_min := none, funding_max := none }
    business_model := { types := [], exclude_types := [],
                        recurring_revenue_required := false }
    customer_type := []
    compliance_tags := []
    preferred_signals := []
    disqualifiers := []
    dealbreakers := []
    weights := [] }

/-! ### Hard filters: `app/score/filters.py` -/

/-- One entry of `FilterResult.disqualification_reasons`; each constructor
records the data interpolated into the corresponding f-string of
`filters.py` (`"Dealbreaker: {dq}"`, `"Excluded industry: {industry}"`,
`"Excluded business model: {bm}"`). -/
inductive DisqualReason where
  | dealbreaker (label : String)
  | excludedIndustry (industry : String)
  | excludedBusinessModel (bm : String)
deriving DecidableEq, Repr

/-- One entry of `FilterResult.failed_filters`; constructors record the data
interpolated into the corresponding f-strings of `filters.py` lines
88-116, 138, 148, 160 and the constant message of line 64. -/
inductive FailedFilter where
  | employeesBelowMin (est minv : Int)
  | employeesAboveMax (est maxv : Int)
  | revenueBelowMin (est minv : Int)
  | revenueAboveMax (est maxv : Int)
  | fundingBelowMin (est minv : Int)
  | fundingAboveMax (est maxv : Int)
  | excludedCountry (country : String)
  | notInRequiredCountries (countries : List String)
  | notInRequiredRegions (regions : List String)
  | recurringRevenueRequired
deriving DecidableEq, Repr

/-- `FilterResult` (filters.py lines 11-18). -/
structure FilterResult where
  passed : Bool
  failed_filters : List FailedFilter
  is_disqualified : Bool
  disqualification_reasons : List DisqualReason
deriving DecidableEq, Repr

namespace HardFilters

/-- The repeated per-dimension block of `_check_size_constraints`
(filters.py lines 85-116): if the company value is truthy, check it against
each truthy bound; `below`/`above` build the dimension's failure entries. -/
def dimFailures (value vmin vmax : Option Int)
    (below above : Int → Int → FailedFilter) : List FailedFilter :=
  match value with
  | none => []
  | some v =>
    if v = 0 then []
    else
      (match vmin with
       | some m => if m ≠ 0 ∧ v < m then [below v m] else []
       | none => []) ++
      (match vmax with
       | some m => if m ≠ 0 ∧ v > m then [above v m] else []
       | none => [])

/-- `HardFilters._check_size_constraints` (filters.py lines 76-118). -/
def check_size_constraints (company : EnrichedCompany)
    (criteria : AcquisitionCriteria) : List FailedFilter :=
  dimFailures company.employees_estimate criteria.size.employees_min
      criteria.size.employees_max .employeesBelowMin .employeesAboveMax ++
  dimFailures company.revenue_estimate criteria.size.revenue_min
      criteria.size.revenue_max .revenueBelowMin .revenueAboveMax ++
  dimFailures company.funding_total criteria.size.funding_min
      criteria.size.funding_max .fundingBelowMin .fundingAboveMax

/-- `HardFilters._check_geography_constraints` (filters.py lines 120-164). -/
def check_geography_constraints (company : EnrichedCompany)
    (criteria : AcquisitionCriteria) : List FailedFilter :=
  let geo := criteria.geography
  match company.headquarters with
  | none => []
  | some hq =>
    if hq = "" then []  -- `if not company.headquarters: return failed`
    else
      let location := strToLower hq
      (geo.exclude_countries.filterMap fun country =>
        if strContains location (strToLower country) then
          some (.excludedCountry country) else none) ++
      (if geo.countries.isEmpty then []
       else if geo.countries.any (fun c => strContains location (strToLower c))
       then [] else [.notInRequiredCountries geo.countries]) ++
      (if geo.regions.isEmpty then []
       else if geo.regions.any (fun r => strContains location (strToLower r))
       then [] else [.notInRequiredRegions geo.regions])

/-- `HardFilters.apply` (filters.py lines 24-74). -/
def apply (company : EnrichedCompany) (criteria : AcquisitionCriteria) :
    FilterResult :=
  let dealbreakerReasons : List DisqualReason :=
    company.disqualifiers_detected.filterMap fun dq =>
      if criteria.dealbreakers.contains dq then some (.dealbreaker dq) else none
  let industryReasons : List DisqualReason :=
    company.industries.filterMap fun industry =>
      if (criteria.industries_exclude.map strToLower).contains
          (strToLower industry) then
        some (.excludedIndustry industry) else none
  let bmReasons : List DisqualReason :=
    match company.business_model with
    | some bm =>
      if bm ≠ "" ∧ (criteria.business_model.exclude_types.map
          strToLower).contains (strToLower bm) then
        [.excludedBusinessModel bm] else []
    | none => []
  let disqualification_reasons :=
    dealbreakerReasons ++ industryReasons ++ bmReasons
  let failed_filters :=
    check_size_constraints company criteria ++
    check_geography_constraints company criteria ++
    (if criteria.business_model.recurring_revenue_required ∧
        company.business_model ≠ some "SaaS" ∧
        company.business_model ≠ some "subscription" then
      [.recurringRevenueRequired] else [])
  let is_disqualified := !disqualification_reasons.isEmpty
  { passed := disqualification_reasons.isEmpty ∧ failed_filters.isEmpty
    failed_filters := failed_filters
    is_disqualified := is_disqualified
    disqualification_reasons := disqualification_reasons }

end HardFilters

/-! ### Evidence extraction: `app/score/evidence.py` -/

/-- The six criterion categories used in the namespaced evidence labels
(`"industry:…"`, `"keyword:…"`, `"business_model:…"`, `"customer_type:…"`,
`"compliance:…"`, `"signal:…"`). -/
inductive CriterionTag where
  | industry
  | keyword
  | business_model
  | customer_type
  | compliance
  | signal
deriving DecidableEq, Repr

/-- A namespaced criterion label `tag:value` (see `CriterionTag`). -/
structure Criterion where
  tag : CriterionTag
  value : String
deriving DecidableEq, Repr

/-- `Evidence` (candidate.py lines 8-15). -/
structure Evidence where
  criterion : Criterion
  snippet : String
  source_url : String
  confidence : ℚ
  extraction_method : String
deriving DecidableEq, Repr

/-- A regex word character (`\w`, ASCII range): letter, digit or
underscore. -/
def isWordChar (c : Char) : Bool :=
  c.isAlphanum || c == '_'

/-- Whether position `i` of `cs` holds a word character (out of range
counts as non-word). -/
def wordAt (cs : List Char) (i : Nat) : Bool :=
  match cs.drop i with
  | [] => false
  | c :: _ => isWordChar c

/-- A regex word boundary `\b` at position `i` of `cs`: exactly one of the
neighbouring positions holds a word character. -/
def boundaryAt (cs : List Char) (i : Nat) : Bool :=
  (if i = 0 then false else wordAt cs (i - 1)) != wordAt cs i

/-- Leftmost match position of `re.search(r"\b" + re.escape(kl) + r"\b", cl)`
with `kl` a literal pattern: the first `i` where `kl` occurs with a word
boundary on both sides. -/
def findBoundaryMatch (cl kl : List Char) : Option Nat :=
  (List.range (cl.length + 1)).find? fun i =>
    boundaryAt cl i && kl.isPrefixOf (cl.drop i) && boundaryAt cl (i + kl.length)

namespace EvidenceExtractor

/-- `EvidenceExtractor.MAX_SNIPPET_LENGTH` (evidence.py line 16). -/
def MAX_SNIPPET_LENGTH : Nat := 200

/-- `EvidenceExtractor._find_snippet` (evidence.py lines 241-281): find the
first word-boundary, case-insensitive occurrence of `keyword` in `content`,
extract 80 characters of context either side, strip, add `"..."` markers at
cut content boundaries, truncate to 200 characters plus a trailing `"..."`
if still longer, and resolve the source URL as the first page containing
the keyword (plain substring, case-insensitive). -/
def find_snippet (content keyword : String)
    (page_contents : List (String × String)) : Option String × Option String :=
  let cl := (strToLower content).data
  let kl := (strToLower keyword).data
  match findBoundaryMatch cl kl with
  | none => (none, none)
  | some i =>
    let start := i - 80            -- `max(0, match.start() - 80)`
    let stop := min content.data.length (i + kl.length + 80)
    let snippet0 := strTrim (String.mk ((content.data.drop start).take (stop - start)))
    let s1 := if start > 0 then "..." ++ snippet0 else snippet0
    let s2 := if stop < content.data.length then s1 ++ "..." else s1
    let s3 := if s2.length > MAX_SNIPPET_LENGTH then
        String.mk (s2.data.take MAX_SNIPPET_LENGTH) ++ "..." else s2
    let source_url :=
      (page_contents.find? fun p =>
        strContains (strToLower p.2) (strToLower keyword)).map (·.1)
    (some s3, source_url)

/-- Shared emission step: build an `Evidence` when `_find_snippet` produced a
truthy snippet (the source guards each append with `if snippet:`). -/
def mkEvidence (company : EnrichedCompany) (content : String) (tag : CriterionTag)
    (label keyword : String) (confidence : ℚ) : Option Evidence :=
  match find_snippet content keyword company.page_contents with
  | (some s, src) =>
    if s ≠ "" then
      some { criterion := ⟨tag, label⟩
             snippet := s
             source_url := strOrD src (strOrD company.website "")
             confidence := confidence
             extraction_method := "keyword" }
    else none
  | (none, _) => none

/-- `EvidenceExtractor._extract_industry_evidence` (evidence.py 51-74). -/
def extract_industry_evidence (company : EnrichedCompany)
    (criteria : AcquisitionCriteria) (content : String) : List Evidence :=
  criteria.industries_include.filterMap fun industry =>
    if (company.industries.map strToLower).contains (strToLower industry) then
      mkEvidence company content .industry industry industry ((8:ℚ)/10)
    else none

/-- `EvidenceExtractor._extract_keyword_evidence` (evidence.py 76-98). -/
def extract_keyword_evidence (company : EnrichedCompany)
    (criteria : AcquisitionCriteria) (content : String) : List Evidence :=
  criteria.keywords_include.filterMap fun keyword =>
    mkEvidence company content .keyword keyword keyword ((7:ℚ)/10)

/-- The `bm_keywords` table of `_extract_business_model_evidence`
(evidence.py 120-126); `dict.get(bm, [bm.lower()])`. -/
def bmKeywords (bm : String) : List String :=
  match bm with
  | "SaaS" => ["subscription", "monthly", "cloud", "saas", "software as a service"]
  | "marketplace" => ["marketplace", "platform", "connect", "buyers", "sellers"]
  | "services" => ["consulting", "services", "agency", "professional"]
  | "hardware" => ["device", "hardware", "physical", "manufacturing"]
  | "e-commerce" => ["shop", "store", "buy", "commerce", "retail"]
  | _ => [strToLower bm]

/-- `EvidenceExtractor._extract_business_model_evidence` (evidence.py
100-144): at most one evidence entry, for the first table keyword with a
snippet (`break`). -/
def extract_business_model_evidence (company : EnrichedCompany)
    (criteria : AcquisitionCriteria) (content : String) : List Evidence :=
  match company.business_model with
  | none => []
  | some bm =>
    if bm = "" then []  -- `if not company.business_model: return evidence`
    else if ¬criteria.business_model.types.isEmpty ∧
        ¬(criteria.business_model.types.map strToLower).contains
          (strToLower bm) then []
    else
      ((bmKeywords bm).findSome? fun keyword =>
        mkEvidence company content .business_model bm keyword
          company.business_model_confidence).toList

/-- The `customer_keywords` table of `_extract_customer_type_evidence`
(evidence.py 155-160); `dict.get(ctype, [ctype.lower()])`. -/
def customerKeywords (ctype : String) : List String :=
  match ctype with
  | "B2B" => ["business", "enterprise", "company", "organization", "b2b"]
  | "B2C" => ["consumer", "individual", "personal", "b2c"]
  | "enterprise" => ["enterprise", "fortune 500", "large organization"]
  | "SMB" => ["small business", "smb", "growing business"]
  | _ => [strToLower ctype]

/-- `EvidenceExtractor._extract_customer_type_evidence` (evidence.py
146-179): per matching customer type, at most one entry for the first
table keyword with a snippet (`break`). -/
def extract_customer_type_evidence (company : EnrichedCompany)
    (criteria : AcquisitionCriteria) (content : String) : List Evidence :=
  criteria.customer_type.filterMap fun ctype =>
    if company.customer_types.contains ctype then
      (customerKeywords ctype).findSome? fun keyword =>
        mkEvidence company content .customer_type ctype keyword ((7:ℚ)/10)
    else none

/-- `EvidenceExtractor._extract_compliance_evidence` (evidence.py 181-204). -/
def extract_compliance_evidence (company : EnrichedCompany)
    (criteria : AcquisitionCriteria) (content : String) : List Evidence :=
  criteria.compliance_tags.filterMap fun compliance =>
    if company.compliance_indicators.contains compliance then
      mkEvidence company content .compliance compliance compliance ((9:ℚ)/10)
    else none

/-- The `signal_keywords` table of `_extract_signal_evidence` (evidence.py
215-220); `dict.get(signal, [signal.replace("_", " ")])`. -/
def signalKeywords (signal : String) : List String :=
  match signal with
  | "growing_team" => ["hiring", "join our team", "careers", "open positions"]
  | "recent_funding" => ["raised", "funding", "series", "investment"]
  | "product_launch" => ["launched", "announcing", "introducing", "new product"]
  | "customer_growth" => ["customers", "users", "clients", "trusted by"]
  | _ => [replaceUnderscores signal]

/-- `EvidenceExtractor._extract_signal_evidence` (evidence.py 206-239). -/
def extract_signal_evidence (company : EnrichedCompany)
    (criteria : AcquisitionCriteria) (content : String) : List Evidence :=
  criteria.preferred_signals.filterMap fun signal =>
    if company.signals_detected.contains signal then
      (signalKeywords signal).findSome? fun keyword =>
        mkEvidence company content .signal signal keyword ((6:ℚ)/10)
    else none

/-- The concatenated page text `"\n".join(company.page_contents.values())`
(evidence.py line 27). -/
def allContent (company : EnrichedCompany) : String :=
  String.intercalate "\n" (company.page_contents.map (·.2))

/-- `EvidenceExtractor.extract_evidence` (evidence.py lines 18-49). -/
def extract_evidence (company : EnrichedCompany)
    (criteria : AcquisitionCriteria) : List Evidence :=
  let content := allContent company
  extract_industry_evidence company criteria content ++
  extract_keyword_evidence company criteria content ++
  extract_business_model_evidence company criteria content ++
  extract_customer_type_evidence company criteria content ++
  extract_compliance_evidence company criteria content ++
  extract_signal_evidence company criteria content

end EvidenceExtractor

/-! ### Scorer: `app/score/scorer.py` -/

/-- The per-category score dictionary built by `Scorer._calculate_scores`
(fixed keys, insertion order `industry, keyword, business_model,
customer_type, geography, size, compliance, signals`). -/
structure ScoreBreakdown where
  industry : ℚ
  keyword : ℚ
  business_model : ℚ
  customer_type : ℚ
  geography : ℚ
  size : ℚ
  compliance : ℚ
  signals : ℚ
deriving DecidableEq, Repr

/-- One entry of `match_summary`; each constructor records the data
interpolated into the corresponding f-string of `Scorer._generate_summary`
(scorer.py lines 387-451). -/
inductive SummaryItem where
  | cannabisHighlight (confPct : Int)
  | arrEstimated (millions : ℚ)
  | arr (millions : ℚ)
  | softwareRevenue (confPct : Int)
  | businessModel (bm : String)
  | industryMatch (industries : List String)
  | teamSize (employees : Int)
  | customerFocus (customer_types : List String)
  | signalsLine (labels : List String)
  | limitedData
deriving DecidableEq, Repr

/-- `ScoredCompany` (candidate.py lines 71-97).  The pydantic class inherits
every `EnrichedCompany` field (`**company.model_dump()` in `Scorer.score`);
here the carried-through company is the `company` field. -/
structure ScoredCompany where
  company : EnrichedCompany
  fit_score : ℚ
  confidence : ℚ
  rank : Option Nat
  passed_filters : Bool
  failed_filters : List FailedFilter
  is_disqualified : Bool
  disqualification_reasons : List DisqualReason
  evidence : List Evidence
  match_summary : List SummaryItem
  score_breakdown : ScoreBreakdown
deriving DecidableEq, Repr

namespace Scorer

/-- `Scorer.DEFAULT_WEIGHTS` (scorer.py lines 17-26). -/
def DEFAULT_WEIGHTS : List (String × ℚ) :=
  [("industry", (2:ℚ)/10), ("keyword", (15:ℚ)/100),
   ("business_model", (2:ℚ)/10), ("customer_type", (15:ℚ)/100),
   ("geography", (1:ℚ)/10), ("size", (1:ℚ)/10),
   ("compliance", (5:ℚ)/100), ("signals", (5:ℚ)/100)]

/-- `Scorer._score_industry` (scorer.py lines 142-159). -/
def score_industry (company : EnrichedCompany)
    (criteria : AcquisitionCriteria) : ℚ :=
  if criteria.industries_include.isEmpty then 1
  else if company.industries.isEmpty then 0
  else
    let matchCount : Nat := company.industries.countP fun ind =>
      (criteria.industries_include.map strToLower).contains (strToLower ind)
    min ((matchCount : ℚ) / (criteria.industries_include.length : ℚ)) 1

/-- `Scorer._score_keywords` (scorer.py lines 161-175): fraction of
`keywords_include` with at least one evidence record (`len(set(...))` over
the `keyword:` criterion labels). -/
def score_keywords (_company : EnrichedCompany)
    (criteria : AcquisitionCriteria) (evidence : List Evidence) : ℚ :=
  if criteria.keywords_include.isEmpty then 1
  else
    let keyword_evidence := evidence.filter fun e => e.criterion.tag = .keyword
    let matchCount : Nat := (keyword_evidence.map (·.criterion)).eraseDups.length
    min ((matchCount : ℚ) / (criteria.keywords_include.length : ℚ)) 1

/-- `Scorer._score_business_model` (scorer.py lines 177-191). -/
def score_business_model (company : EnrichedCompany)
    (criteria : AcquisitionCriteria) : ℚ :=
  if criteria.business_model.types.isEmpty then 1
  else if ¬truthyS company.business_model then 0
  else if (criteria.business_model.types.map strToLower).contains
      (strToLower (company.business_model.getD "")) then
    company.business_model_confidence
  else 0

/-- `Scorer._score_customer_type` (scorer.py lines 193-210). -/
def score_customer_type (company : EnrichedCompany)
    (criteria : AcquisitionCriteria) : ℚ :=
  if criteria.customer_type.isEmpty then 1
  else if company.customer_types.isEmpty then 0
  else
    let matchCount : Nat := company.customer_types.countP fun ct =>
      criteria.customer_type.contains ct
    min ((matchCount : ℚ) / (criteria.customer_type.length : ℚ)) 1

/-- `Scorer._score_geography` (scorer.py lines 212-240). -/
def score_geography (company : EnrichedCompany)
    (criteria : AcquisitionCriteria) : ℚ :=
  if criteria.geography.countries.isEmpty ∧
      criteria.geography.regions.isEmpty then 1
  else if ¬truthyS company.headquarters then (1:ℚ)/2
  else
    let location := strToLower (company.headquarters.getD "")
    if ¬criteria.geography.countries.isEmpty then
      if criteria.geography.countries.any
          (fun country => strContains location (strToLower country)) then 1 else 0
    else if ¬criteria.geography.regions.isEmpty then
      if criteria.geography.regions.any
          (fun region => strContains location (strToLower region)) then 1 else 0
    else (1:ℚ)/2

/-- The repeated per-dimension block of `Scorer._score_size` (scorer.py
lines 252-285): `none` when neither bound is truthy (dimension omitted from
the average), otherwise `1` in range / `0` out of range / `0.5` when the
company value is not truthy. -/
def sizeDimScore (value vmin vmax : Option Int) : Option ℚ :=
  if truthyI vmin || truthyI vmax then
    some (match value with
      | some v =>
        if v = 0 then (1:ℚ)/2
        else
          let inRange :=
            ¬(truthyI vmin ∧ v < vmin.getD 0) ∧
            ¬(truthyI vmax ∧ v > vmax.getD 0)
          if inRange then 1 else 0
      | none => (1:ℚ)/2)
  else none

/-- `Scorer._score_size` (scorer.py lines 242-290). -/
def score_size (company : EnrichedCompany)
    (criteria : AcquisitionCriteria) : ℚ :=
  let size := criteria.size
  let scores : List ℚ :=
    [sizeDimScore company.employees_estimate size.employees_min
       size.employees_max,
     sizeDimScore company.revenue_estimate size.revenue_min size.revenue_max,
     sizeDimScore company.funding_total size.funding_min
       size.funding_max].filterMap id
  if scores.isEmpty then 1
  else scores.sum / (scores.length : ℚ)

/-- `Scorer._score_compliance` (scorer.py lines 292-309). -/
def score_compliance (company : EnrichedCompany)
    (criteria : AcquisitionCriteria) : ℚ :=
  if criteria.compliance_tags.isEmpty then 1
  else if company.compliance_indicators.isEmpty then 0
  else
    let matchCount : Nat := criteria.compliance_tags.countP fun tag =>
      company.compliance_indicators.contains tag
    (matchCount : ℚ) / (criteria.compliance_tags.length : ℚ)

/-- `Scorer._score_signals` (scorer.py lines 311-328). -/
def score_signals (company : EnrichedCompany)
    (criteria : AcquisitionCriteria) : ℚ :=
  if criteria.preferred_signals.isEmpty then 1
  else if company.signals_detected.isEmpty then 0
  else
    let matchCount : Nat := criteria.preferred_signals.countP fun signal =>
      company.signals_detected.contains signal
    (matchCount : ℚ) / (criteria.preferred_signals.length : ℚ)

/-- `Scorer._calculate_scores` (scorer.py lines 93-140), including the
cannabis industry boost (lines 102-113) and the software revenue
confidence boost (lines 118-123). -/
def calculate_scores (company : EnrichedCompany)
    (criteria : AcquisitionCriteria) (evidence : List Evidence) :
    ScoreBreakdown :=
  let industry0 := score_industry company criteria
  let industry :=
    if company.is_cannabis_industry ∧ criteria.industries_include.any
        (fun ind => strContains (strToLower ind) "cannabis") then
      max industry0 company.cannabis_confidence
    else industry0
  let bm0 := score_business_model company criteria
  let bm := if company.software_revenue_confidence > (1:ℚ)/2 then
      max bm0 company.software_revenue_confidence
    else bm0
  { industry := industry
    keyword := score_keywords company criteria evidence
    business_model := bm
    customer_type := score_customer_type company criteria
    geography := score_geography company criteria
    size := score_size company criteria
    compliance := score_compliance company criteria
    signals := score_signals company criteria }

/-- The items of the `scores` dict, in insertion order (scorer.py lines
100-140), as consumed by `_calculate_fit_score`'s loop. -/
def categoryList (b : ScoreBreakdown) : List (String × ℚ) :=
  [("industry", b.industry), ("keyword", b.keyword),
   ("business_model", b.business_model), ("customer_type", b.customer_type),
   ("geography", b.geography), ("size", b.size),
   ("compliance", b.compliance), ("signals", b.signals)]

/-- `Scorer._calculate_fit_score` (scorer.py lines 330-348).  The weight of
a category is `criteria.get_weight(c, DEFAULT_WEIGHTS.get(c, 0.5))`. -/
def calculate_fit_score (score_breakdown : ScoreBreakdown)
    (criteria : AcquisitionCriteria) : ℚ :=
  let pairs := categoryList score_breakdown
  let weightOf := fun c =>
    criteria.get_weight c ((DEFAULT_WEIGHTS.lookup c).getD ((1:ℚ)/2))
  let total_weight := (pairs.map fun p => weightOf p.1).sum
  let weighted_sum := (pairs.map fun p => p.2 * weightOf p.1).sum
  if total_weight = 0 then 0
  else weighted_sum / total_weight * 100

/-- `Scorer._calculate_confidence` (scorer.py lines 350-385). -/
def calculate_confidence (company : EnrichedCompany)
    (evidence : List Evidence) : ℚ :=
  let presentCount : ℚ :=
    ((if truthyS company.business_model then 1 else 0) +
     (if ¬company.customer_types.isEmpty then 1 else 0) +
     (if ¬company.industries.isEmpty then 1 else 0) +
     (if truthyI company.employees_estimate then 1 else 0) +
     (if truthyS company.headquarters then 1 else 0) : ℚ)
  let data_completeness := presentCount / 5
  let evidenceFactor :=
    if evidence.isEmpty then (3:ℚ)/10
    else (evidence.map (·.confidence)).sum / (evidence.length : ℚ)
  let factors : List ℚ :=
    [data_completeness, evidenceFactor] ++
    (if truthyS company.business_model then
      [company.business_model_confidence] else []) ++
    (if company.extraction_confidence > 0 then
      [company.extraction_confidence] else [])
  if factors.isEmpty then 0 else factors.sum / (factors.length : ℚ)

/-- `Scorer._generate_summary` (scorer.py lines 387-451). -/
def generate_summary (company : EnrichedCompany)
    (criteria : AcquisitionCriteria) (_evidence : List Evidence)
    (score_breakdown : ScoreBreakdown) : List SummaryItem :=
  let matched_industries := company.industries.filter fun ind =>
    (criteria.industries_include.map strToLower).contains (strToLower ind)
  let matched_customers := company.customer_types.filter fun ct =>
    criteria.customer_type.contains ct
  let matched_signals := company.signals_detected.filter fun s =>
    criteria.preferred_signals.contains s
  let summary : List SummaryItem :=
    (if company.is_cannabis_industry then
      [.cannabisHighlight (pyTrunc (company.cannabis_confidence * 100))]
     else []) ++
    (match company.revenue_estimate with
     | some v =>
       if v = 0 then []
       else if company.revenue_is_estimated then
         [.arrEstimated ((v:ℚ) / 1000000)]
       else [.arr ((v:ℚ) / 1000000)]
     | none => []) ++
    (if company.software_revenue_confidence > (3:ℚ)/10 then
      [.softwareRevenue (pyTrunc (company.software_revenue_confidence * 100))]
     else []) ++
    (if truthyS company.business_model ∧
        score_breakdown.business_model > (1:ℚ)/2 then
      [.businessModel (company.business_model.getD "")]
     else []) ++
    (if ¬matched_industries.isEmpty ∧ ¬company.is_cannabis_industry then
      [.industryMatch (matched_industries.take 3)]
     else []) ++
    (match company.employees_estimate with
     | some v => if v = 0 then [] else [.teamSize v]
     | none => []) ++
    (if ¬matched_customers.isEmpty then
      [.customerFocus matched_customers]
     else []) ++
    (if ¬matched_signals.isEmpty then
      [.signalsLine ((matched_signals.take 3).map replaceUnderscores)]
     else [])
  (if summary.isEmpty then [.limitedData] else summary).take 7

/-- `Scorer.score` (scorer.py lines 32-74): hard filters, evidence,
per-category scores, weighted fit score, confidence, summary; finally the
fit score is forced to `0` when disqualified (lines 70-72). -/
def score (company : EnrichedCompany) (criteria : AcquisitionCriteria) :
    ScoredCompany :=
  let filter_result := HardFilters.apply company criteria
  let evidence := EvidenceExtractor.extract_evidence company criteria
  let score_breakdown := calculate_scores company criteria evidence
  let fit_score := calculate_fit_score score_breakdown criteria
  let confidence := calculate_confidence company evidence
  let match_summary := generate_summary company criteria evidence score_breakdown
  let scored : ScoredCompany :=
    { company := company
      fit_score := fit_score
      confidence := confidence
      rank := none
      passed_filters := filter_result.passed
      failed_filters := filter_result.failed_filters
      is_disqualified := filter_result.is_disqualified
      disqualification_reasons := filter_result.disqualification_reasons
      evidence := evidence
      match_summary := match_summary
      score_breakdown := score_breakdown }
  if scored.is_disqualified then { scored with fit_score := 0 } else scored

/-- The sort key comparison of `scored.sort(key=lambda c: (c.fit_score,
c.confidence), reverse=True)` (scorer.py line 85): `a` may precede `b`
exactly when `(a.fit_score, a.confidence)` is lexicographically at least
`(b.fit_score, b.confidence)`.  A stable sort under this total preorder is
exactly Python's stable descending sort. -/
def rankLE (a b : ScoredCompany) : Bool :=
  decide (b.fit_score < a.fit_score ∨
    (b.fit_score = a.fit_score ∧ b.confidence ≤ a.confidence))

/-- `Scorer.score_and_rank` (scorer.py lines 76-91): score each company,
stably sort by `(fit_score, confidence)` descending, assign 1-based
ranks. -/
def score_and_rank (companies : List EnrichedCompany)
    (criteria : AcquisitionCriteria) : List ScoredCompany :=
  let scored := companies.map fun c => score c criteria
  let sorted := scored.mergeSort rankLE
  sorted.mapIdx fun i c => { c with rank := some (i + 1) }

end Scorer

/-! ### C1: the scorer reads attributes the data model does not declare

`Scorer._calculate_scores` and `Scorer._generate_summary` access
`company.is_cannabis_industry`, `company.cannabis_confidence`,
`company.software_revenue_confidence` and `company.revenue_is_estimated`
(scorer.py lines 104, 107, 112, 121-122, 398-399, 405, 411-412, 424), but
`candidate.py` declares none of these on `EnrichedCompany` (they exist only
on `enrich.parser.ExtractionResult`, lines 20-30, and the enrichment
pipeline never copies them over).  On a pydantic model, reading an
undeclared attribute raises `AttributeError`, so `Scorer.score` raises on
every actual `EnrichedCompany` — including the minimally populated records
of the claim and the records built by `tests/test_scoring.py`. -/

/-- The fields pydantic declares on `EnrichedCompany` (candidate.py lines
18-68, including those inherited from `CandidateCompany`). -/
def enrichedCompanyDeclaredFields : List String :=
  ["name", "domain", "website", "description", "source", "source_url",
   "discovered_at", "industry", "location", "employee_count", "enriched_at",
   "enrichment_sources", "founded_year", "headquarters",
   "employees_estimate", "revenue_estimate", "funding_total",
   "business_model", "business_model_confidence", "customer_types",
   "industries", "compliance_indicators", "signals_detected",
   "disqualifiers_detected", "page_contents", "extraction_confidence"]

/-- The attributes `scorer.py` reads on its `company` argument. -/
def scorerCompanyAttributeReads : List String :=
  ["is_cannabis_industry", "cannabis_confidence",
   "software_revenue_confidence", "revenue_is_estimated", "industries",
   "business_model", "business_model_confidence", "customer_types",
   "headquarters", "employees_estimate", "revenue_estimate", "funding_total",
   "compliance_indicators", "signals_detected", "extraction_confidence"]

/-- C1: for every type-valid `EnrichedCompany`, `Scorer.score` must return a
`ScoredCompany` without raising.  The code violates this: the four listed
attributes are read by `scorer.py` on every call (line 104 is reached
unconditionally) yet are not declared fields of the pydantic
`EnrichedCompany` model, so the read raises `AttributeError` — contradicting
both the spec's no-raise guarantee and the repository's own
`tests/test_scoring.py`, which scores plain `EnrichedCompany` records and
expects results. -/
theorem scorer_reads_fields_undeclared_on_EnrichedCompany :
    (["is_cannabis_industry", "cannabis_confidence",
      "software_revenue_confidence", "revenue_is_estimated"].all fun attr =>
        scorerCompanyAttributeReads.contains attr &&
        !enrichedCompanyDeclaredFields.contains attr) = true := by
  decide

/-! ### C2: dealbreaker overlap forces disqualification and a zero fit -/

/-- Over the repaired model (see `EnrichedCompany` on the undeclared
attribute reads of C1): whenever `disqualifiers_detected` shares a label
with `criteria.dealbreakers`, the scorer forces `is_disqualified = true`
and `fit_score = 0`, regardless of the weighted fit computed from the
category sub-scores. -/
theorem score_dealbreaker_disqualifies
    (company : EnrichedCompany) (criteria : AcquisitionCriteria)
    (h : ∃ dq, dq ∈ company.disqualifiers_detected ∧
        dq ∈ criteria.dealbreakers) :
    (Scorer.score company criteria).is_disqualified = true ∧
    (Scorer.score company criteria).fit_score = 0 := by
  obtain ⟨dq, hmem, hdeal⟩ := h
  have hdb : DisqualReason.dealbreaker dq ∈
      (company.disqualifiers_detected.filterMap fun d =>
        if criteria.dealbreakers.contains d then
          some (DisqualReason.dealbreaker d) else none) :=
    List.mem_filterMap.mpr ⟨dq, hmem, by simp [hdeal]⟩
  have hmem2 : DisqualReason.dealbreaker dq ∈
      (HardFilters.apply company criteria).disqualification_reasons := by
    show DisqualReason.dealbreaker dq ∈ _ ++ _ ++ _
    exact List.mem_append_left _ (List.mem_append_left _ hdb)
  have hdq : (HardFilters.apply company criteria).is_disqualified = true := by
    show (!(HardFilters.apply company criteria).disqualification_reasons.isEmpty) = true
    rcases hL : (HardFilters.apply company criteria).disqualification_reasons with - | ⟨r, rs⟩
    · rw [hL] at hmem2; cases hmem2
    · rfl
  refine ⟨?_, ?_⟩ <;> simp [Scorer.score, hdq]

/-! ### C5: empty criteria are vacuously satisfied with sub-score 1.0 -/

/-- C5: every category sub-score function returns `1.0` when the
corresponding criteria list is empty (or every size bound unset); in
particular `_score_industry` returns `1.0` for an empty
`industries_include` regardless of the company's industries. -/
theorem empty_criteria_subscores_one
    (company : EnrichedCompany) (criteria : AcquisitionCriteria)
    (evidence : List Evidence) :
    (criteria.industries_include = [] →
      Scorer.score_industry company criteria = 1) ∧
    (criteria.keywords_include = [] →
      Scorer.score_keywords company criteria evidence = 1) ∧
    (criteria.business_model.types = [] →
      Scorer.score_business_model company criteria = 1) ∧
    (criteria.customer_type = [] →
      Scorer.score_customer_type company criteria = 1) ∧
    (criteria.geography.countries = [] → criteria.geography.regions = [] →
      Scorer.score_geography company criteria = 1) ∧
    (criteria.size.employees_min = none → criteria.size.employees_max = none →
      criteria.size.revenue_min = none → criteria.size.revenue_max = none →
      criteria.size.funding_min = none → criteria.size.funding_max = none →
      Scorer.score_size company criteria = 1) ∧
    (criteria.compliance_tags = [] →
      Scorer.score_compliance company criteria = 1) ∧
    (criteria.preferred_signals = [] →
      Scorer.score_signals company criteria = 1) := by
  refine ⟨?_, ?_, ?_, ?_, ?_, ?_, ?_, ?_⟩
  · intro h; simp [Scorer.score_industry, h]
  · intro h; simp [Scorer.score_keywords, h]
  · intro h; simp [Scorer.score_business_model, h]
  · intro h; simp [Scorer.score_customer_type, h]
  · intro h h'; simp [Scorer.score_geography, h, h']
  · intro h1 h2 h3 h4 h5 h6
    simp [Scorer.score_size, Scorer.sizeDimScore, h1, h2, h3, h4, h5, h6,
      truthyI]
  · intro h; simp [Scorer.score_compliance, h]
  · intro h; simp [Scorer.score_signals, h]

/-- Witness for C5 at a concrete company and the all-empty criteria. -/
theorem empty_criteria_subscores_one_witness :
    Scorer.score_industry (minimalCompany "Acme" "test") emptyCriteria = 1 ∧
    Scorer.score_size (minimalCompany "Acme" "test") emptyCriteria = 1 := by
  refine ⟨?_, ?_⟩
  · exact (empty_criteria_subscores_one (minimalCompany "Acme" "test")
      emptyCriteria []).1 rfl
  · exact (empty_criteria_subscores_one (minimalCompany "Acme" "test")
      emptyCriteria []).2.2.2.2.2.1 rfl rfl rfl rfl rfl rfl

/-- A minimal record carrying one detected disqualifier (the input of
`tests/test_scoring.py::test_score_disqualified`). -/
def c2Company : EnrichedCompany :=
  { minimalCompany "Acme" "test" with disqualifiers_detected := ["gambling"] }

/-- Criteria with `dealbreakers = ["gambling"]`. -/
def c2Criteria : AcquisitionCriteria :=
  { emptyCriteria with dealbreakers := ["gambling"] }

/-- The dealbreaker override evaluated at the concrete disqualified
company. -/
theorem score_dealbreaker_disqualifies_witness :
    (Scorer.score c2Company c2Criteria).is_disqualified = true ∧
    (Scorer.score c2Company c2Criteria).fit_score = 0 :=
  score_dealbreaker_disqualifies c2Company c2Criteria
    ⟨"gambling", by simp [c2Company, minimalCompany],
      by simp [c2Criteria, emptyCriteria]⟩

/-! ### C3: the fit score is the renormalized weighted mean -/

/-- The documented default weights, written as in the claim: industry .20,
keyword .15, business_model .20, customer_type .15, geography .10, size
.10, compliance .05, signals .05 (any other name defaults to 0.5 as in
`DEFAULT_WEIGHTS.get(criterion, 0.5)`). -/
def defaultWeightSpec : String → ℚ
  | "industry" => 20/100
  | "keyword" => 15/100
  | "business_model" => 20/100
  | "customer_type" => 15/100
  | "geography" => 10/100
  | "size" => 10/100
  | "compliance" => 5/100
  | "signals" => 5/100
  | _ => 1/2

/-- The claim's per-category weight: from `criteria.weights` if present,
otherwise the documented default. -/
def weightSpec (criteria : AcquisitionCriteria) (c : String) : ℚ :=
  (criteria.weights.lookup c).getD (defaultWeightSpec c)

/-- The claim's fit-score formula: `100 * (Σ score_i * w_i) / (Σ w_i)` over
the eight categories, `0` when the total active weight is `0`. -/
def fitScoreSpec (b : ScoreBreakdown) (criteria : AcquisitionCriteria) : ℚ :=
  let w := weightSpec criteria
  let total := w "industry" + w "keyword" + w "business_model" +
    w "customer_type" + w "geography" + w "size" + w "compliance" +
    w "signals"
  let weighted := b.industry * w "industry" + b.keyword * w "keyword" +
    b.business_model * w "business_model" +
    b.customer_type * w "customer_type" + b.geography * w "geography" +
    b.size * w "size" + b.compliance * w "compliance" +
    b.signals * w "signals"
  if total = 0 then 0 else 100 * weighted / total

/-- C3: `Scorer._calculate_fit_score` computes exactly the claim's formula:
100 times the weighted mean of the eight category sub-scores, weights from
`criteria.weights` with the documented defaults, normalized by the total
active weight, and 0 when that total is 0. -/
theorem calculate_fit_score_is_renormalized_weighted_mean
    (b : ScoreBreakdown) (criteria : AcquisitionCriteria) :
    Scorer.calculate_fit_score b criteria = fitScoreSpec b criteria := by
  have h1 : (Scorer.DEFAULT_WEIGHTS.lookup "industry").getD ((1:ℚ)/2) =
      defaultWeightSpec "industry" := by
      simp [Scorer.DEFAULT_WEIGHTS, defaultWeightSpec, List.lookup] <;> norm_num
  have h2 : (Scorer.DEFAULT_WEIGHTS.lookup "keyword").getD ((1:ℚ)/2) =
      defaultWeightSpec "keyword" := by
      simp [Scorer.DEFAULT_WEIGHTS, defaultWeightSpec, List.lookup] <;> norm_num
  have h3 : (Scorer.DEFAULT_WEIGHTS.lookup "business_model").getD ((1:ℚ)/2) =
      defaultWeightSpec "business_model" := by
      simp [Scorer.DEFAULT_WEIGHTS, defaultWeightSpec, List.lookup] <;> norm_num
  have h4 : (Scorer.DEFAULT_WEIGHTS.lookup "customer_type").getD ((1:ℚ)/2) =
      defaultWeightSpec "customer_type" := by
      simp [Scorer.DEFAULT_WEIGHTS, defaultWeightSpec, List.lookup] <;> norm_num
  have h5 : (Scorer.DEFAULT_WEIGHTS.lookup "geography").getD ((1:ℚ)/2) =
      defaultWeightSpec "geography" := by
      simp [Scorer.DEFAULT_WEIGHTS, defaultWeightSpec, List.lookup] <;> norm_num
  have h6 : (Scorer.DEFAULT_WEIGHTS.lookup "size").getD ((1:ℚ)/2) =
      defaultWeightSpec "size" := by
      simp [Scorer.DEFAULT_WEIGHTS, defaultWeightSpec, List.lookup] <;> norm_num
  have h7 : (Scorer.DEFAULT_WEIGHTS.lookup "compliance").getD ((1:ℚ)/2) =
      defaultWeightSpec "compliance" := by
      simp [Scorer.DEFAULT_WEIGHTS, defaultWeightSpec, List.lookup] <;> norm_num
  have h8 : (Scorer.DEFAULT_WEIGHTS.lookup "signals").getD ((1:ℚ)/2) =
      defaultWeightSpec "signals" := by
      simp [Scorer.DEFAULT_WEIGHTS, defaultWeightSpec, List.lookup] <;> norm_num
  simp only [Scorer.calculate_fit_score, Scorer.categoryList, fitScoreSpec,
    weightSpec, AcquisitionCriteria.get_weight, List.map_cons, List.map_nil,
    List.sum_cons, List.sum_nil, h1, h2, h3, h4, h5, h6, h7, h8]
  have htot :
      weightSpec criteria "industry" + (weightSpec criteria "keyword" +
        (weightSpec criteria "business_model" +
        (weightSpec criteria "customer_type" +
        (weightSpec criteria "geography" + (weightSpec criteria "size" +
        (weightSpec criteria "compliance" +
        (weightSpec criteria "signals" + 0))))))) =
      weightSpec criteria "industry" + weightSpec criteria "keyword" +
        weightSpec criteria "business_model" +
        weightSpec criteria "customer_type" + weightSpec criteria "geography" +
        weightSpec criteria "size" + weightSpec criteria "compliance" +
        weightSpec criteria "signals" := by ring
  simp only [weightSpec, AcquisitionCriteria.get_weight] at htot
  rw [htot]
  split
  · rfl
  · ring

/-! ### C8: size bounds are inclusive -/

/-- Whether a failed filter belongs to the employee size dimension. -/
def isEmployeeSizeFailure : FailedFilter → Bool
  | .employeesBelowMin _ _ => true
  | .employeesAboveMax _ _ => true
  | _ => false

/-- Whether a failed filter belongs to the revenue size dimension. -/
def isRevenueSizeFailure : FailedFilter → Bool
  | .revenueBelowMin _ _ => true
  | .revenueAboveMax _ _ => true
  | _ => false

/-- Whether a failed filter belongs to the funding size dimension. -/
def isFundingSizeFailure : FailedFilter → Bool
  | .fundingBelowMin _ _ => true
  | .fundingAboveMax _ _ => true
  | _ => false

/-- Every entry produced by the per-dimension size block is built by its
`below` or `above` constructor. -/
theorem mem_dimFailures {v mn mx : Option Int}
    {below above : Int → Int → FailedFilter} {f : FailedFilter}
    (hf : f ∈ HardFilters.dimFailures v mn mx below above) :
    (∃ a b, f = below a b) ∨ (∃ a b, f = above a b) := by
  unfold HardFilters.dimFailures at hf
  rcases v with - | v
  · cases hf
  · by_cases hz : v = 0
    · simp [hz] at hf
    · simp only [hz, if_false] at hf
      rcases List.mem_append.mp hf with h | h
      · rcases mn with - | m
        · cases h
        · dsimp only at h
          by_cases hc : m ≠ 0 ∧ v < m
          · rw [if_pos hc] at h
            rcases List.mem_singleton.mp h with rfl
            exact .inl ⟨v, m, rfl⟩
          · rw [if_neg hc] at h
            cases h
      · rcases mx with - | m
        · cases h
        · dsimp only at h
          by_cases hc : m ≠ 0 ∧ v > m
          · rw [if_pos hc] at h
            rcases List.mem_singleton.mp h with rfl
            exact .inr ⟨v, m, rfl⟩
          · rw [if_neg hc] at h
            cases h

/-- Every entry produced by the geography checks is one of the three
geography constructors. -/
theorem mem_check_geography {company : EnrichedCompany}
    {criteria : AcquisitionCriteria} {f : FailedFilter}
    (hf : f ∈ HardFilters.check_geography_constraints company criteria) :
    (∃ c, f = .excludedCountry c) ∨ (∃ cs, f = .notInRequiredCountries cs) ∨
    (∃ rs, f = .notInRequiredRegions rs) := by
  unfold HardFilters.check_geography_constraints at hf
  cases hhq : company.headquarters with
  | none => rw [hhq] at hf; cases hf
  | some hq =>
    rw [hhq] at hf
    dsimp only at hf
    by_cases he : hq = ""
    · rw [if_pos he] at hf
      cases hf
    · rw [if_neg he] at hf
      simp only [List.mem_append, or_assoc] at hf
      rcases hf with h | h | h
      · rcases List.mem_filterMap.mp h with ⟨c, -, hc⟩
        split at hc
        · exact .inl ⟨c, (Option.some.inj hc).symm⟩
        · cases hc
      · split at h
        · cases h
        · split at h
          · cases h
          · exact .inr (.inl ⟨criteria.geography.countries,
              List.mem_singleton.mp h⟩)
      · split at h
        · cases h
        · split at h
          · cases h
          · exact .inr (.inr ⟨criteria.geography.regions,
              List.mem_singleton.mp h⟩)

/-- Decomposition of the failed-filter list of `HardFilters.apply` into its
five sources (definitional). -/
theorem apply_failed_filters (company : EnrichedCompany)
    (criteria : AcquisitionCriteria) :
    (HardFilters.apply company criteria).failed_filters =
    HardFilters.dimFailures company.employees_estimate
        criteria.size.employees_min criteria.size.employees_max
        .employeesBelowMin .employeesAboveMax ++
    HardFilters.dimFailures company.revenue_estimate
        criteria.size.revenue_min criteria.size.revenue_max
        .revenueBelowMin .revenueAboveMax ++
    HardFilters.dimFailures company.funding_total
        criteria.size.funding_min criteria.size.funding_max
        .fundingBelowMin .fundingAboveMax ++
    HardFilters.check_geography_constraints company criteria ++
    (if criteria.business_model.recurring_revenue_required ∧
        company.business_model ≠ some "SaaS" ∧
        company.business_model ≠ some "subscription" then
      [.recurringRevenueRequired] else []) := by
  show HardFilters.check_size_constraints company criteria ++ _ ++ _ = _
  unfold HardFilters.check_size_constraints
  simp [List.append_assoc]

/-- The per-dimension block records nothing when the company value equals a
configured bound of the dimension and the opposite bound (when set and
nonzero) is consistent with it. -/
theorem dimFailures_eq_nil_of_eq_bound {v : Int} {mn mx : Option Int}
    {below above : Int → Int → FailedFilter}
    (h : (mn = some v ∧ ∀ M, mx = some M → M ≠ 0 → v ≤ M) ∨
         (mx = some v ∧ ∀ m, mn = some m → m ≠ 0 → m ≤ v)) :
    HardFilters.dimFailures (some v) mn mx below above = [] := by
  unfold HardFilters.dimFailures
  by_cases hz : v = 0
  · simp [hz]
  · simp only [hz, if_false]
    rcases h with ⟨rfl, hub⟩ | ⟨rfl, hlb⟩
    · have h1 : ¬(v ≠ 0 ∧ v < v) := by omega
      simp only [h1, if_false, List.nil_append]
      rcases mx with - | M
      · rfl
      · have h2 : ¬(M ≠ 0 ∧ v > M) := by
          by_cases hM : M = 0
          · simp [hM]
          · have := hub M rfl hM
            omega
        simp [h2]
    · have h2 : ¬(v ≠ 0 ∧ v > v) := by omega
      simp only [h2, if_false, List.append_nil]
      rcases mn with - | m
      · rfl
      · have h1 : ¬(m ≠ 0 ∧ v < m) := by
          by_cases hm : m = 0
          · simp [hm]
          · have := hlb m rfl hm
            omega
        simp [h1]

/-- C8 (amended): when the company value equals a configured bound of a
size dimension and the dimension's opposite bound — if set and nonzero — is
consistent with it, `HardFilters.apply` records no failure for that
dimension: the min/max bounds are inclusive.  (The original claim, without
the consistency proviso, fails: with `employees_min = 50`,
`employees_max = 10` a company of exactly 50 employees is "above maximum",
see the counterexample.) -/
theorem size_bounds_inclusive (company : EnrichedCompany)
    (criteria : AcquisitionCriteria) (v : Int) :
    (company.employees_estimate = some v →
      ((criteria.size.employees_min = some v ∧
        ∀ M, criteria.size.employees_max = some M → M ≠ 0 → v ≤ M) ∨
       (criteria.size.employees_max = some v ∧
        ∀ m, criteria.size.employees_min = some m → m ≠ 0 → m ≤ v)) →
      ∀ f ∈ (HardFilters.apply company criteria).failed_filters,
        isEmployeeSizeFailure f = false) ∧
    (company.revenue_estimate = some v →
      ((criteria.size.revenue_min = some v ∧
        ∀ M, criteria.size.revenue_max = some M → M ≠ 0 → v ≤ M) ∨
       (criteria.size.revenue_max = some v ∧
        ∀ m, criteria.size.revenue_min = some m → m ≠ 0 → m ≤ v)) →
      ∀ f ∈ (HardFilters.apply company criteria).failed_filters,
        isRevenueSizeFailure f = false) ∧
    (company.funding_total = some v →
      ((criteria.size.funding_min = some v ∧
        ∀ M, criteria.size.funding_max = some M → M ≠ 0 → v ≤ M) ∨
       (criteria.size.funding_max = some v ∧
        ∀ m, criteria.size.funding_min = some m → m ≠ 0 → m ≤ v)) →
      ∀ f ∈ (HardFilters.apply company criteria).failed_filters,
        isFundingSizeFailure f = false) := by
  refine ⟨?_, ?_, ?_⟩ <;>
    intro hv hside f hf <;>
    rw [apply_failed_filters, hv, dimFailures_eq_nil_of_eq_bound hside] at hf <;>
    simp only [List.mem_append, or_assoc, List.not_mem_nil, false_or,
      or_false] at hf
  · rcases hf with h | h | h | h
    · rcases mem_dimFailures h with ⟨a, b, rfl⟩ | ⟨a, b, rfl⟩ <;> rfl
    · rcases mem_dimFailures h with ⟨a, b, rfl⟩ | ⟨a, b, rfl⟩ <;> rfl
    · rcases mem_check_geography h with ⟨c, rfl⟩ | ⟨cs, rfl⟩ | ⟨rs, rfl⟩ <;> rfl
    · split at h
      · rcases List.mem_singleton.mp h with rfl; rfl
      · cases h
  · rcases hf with h | h | h | h
    · rcases mem_dimFailures h with ⟨a, b, rfl⟩ | ⟨a, b, rfl⟩ <;> rfl
    · rcases mem_dimFailures h with ⟨a, b, rfl⟩ | ⟨a, b, rfl⟩ <;> rfl
    · rcases mem_check_geography h with ⟨c, rfl⟩ | ⟨cs, rfl⟩ | ⟨rs, rfl⟩ <;> rfl
    · split at h
      · rcases List.mem_singleton.mp h with rfl; rfl
      · cases h
  · rcases hf with h | h | h | h
    · rcases mem_dimFailures h with ⟨a, b, rfl⟩ | ⟨a, b, rfl⟩ <;> rfl
    · rcases mem_dimFailures h with ⟨a, b, rfl⟩ | ⟨a, b, rfl⟩ <;> rfl
    · rcases mem_check_geography h with ⟨c, rfl⟩ | ⟨cs, rfl⟩ | ⟨rs, rfl⟩ <;> rfl
    · split at h
      · rcases List.mem_singleton.mp h with rfl; rfl
      · cases h

/-- Company with exactly 50 employees (C8 counterexample input). -/
def c8cxCompany : EnrichedCompany :=
  { minimalCompany "Acme" "test" with employees_estimate := some 50 }

/-- Criteria with inconsistent employee bounds `min = 50 > max = 10`
(C8 counterexample input); the spec's §6 says the core never validates
`min ≤ max`, so this is a legal input. -/
def c8cxCriteria : AcquisitionCriteria :=
  { emptyCriteria with
      size := { emptyCriteria.size with
        employees_min := some 50
        employees_max := some 10 } }

/-- C8 counterexample: a company whose `employees_estimate` equals the
configured `employees_min` exactly, for which `HardFilters.apply`
nonetheless records an employee-dimension size failure ("above maximum"),
because the configured `employees_max` lies below the minimum.  This
falsifies the claim as stated (which requires no employee-dimension
failure whenever the estimate equals either configured bound). -/
theorem size_bounds_inclusive_counterexample :
    c8cxCompany.employees_estimate = c8cxCriteria.size.employees_min ∧
    (HardFilters.apply c8cxCompany c8cxCriteria).failed_filters =
      [.employeesAboveMax 50 10] := by
  exact ⟨rfl, by decide⟩

/-- Company/criteria for the C8 witness: exactly 50 employees with
consistent bounds `[50, 100]`. -/
def c8wCompany : EnrichedCompany :=
  { minimalCompany "Acme" "test" with employees_estimate := some 50 }

/-- Criteria for the C8 witness. -/
def c8wCriteria : AcquisitionCriteria :=
  { emptyCriteria with
      size := { emptyCriteria.size with
        employees_min := some 50
        employees_max := some 100 } }

/-- Witness for C8 (amended) at a concrete boundary company. -/
theorem size_bounds_inclusive_witness :
    ((HardFilters.apply c8wCompany c8wCriteria).failed_filters.all
      fun f => !isEmployeeSizeFailure f) = true := by
  have h := (size_bounds_inclusive c8wCompany c8wCriteria 50).1 rfl
    (Or.inl ⟨rfl, by
      intro M hM hM0
      have h100 : c8wCriteria.size.employees_max = some (100 : Int) := rfl
      rw [h100] at hM
      have := Option.some.inj hM
      omega⟩)
  exact List.all_eq_true.mpr fun f hfmem => by simp [h f hfmem]

/-! ### C9: a value of zero is treated as absent -/

/-- Normalization replacing an explicit `0` with "absent". -/
def zeroSizeToNone (o : Option Int) : Option Int :=
  match o with
  | some v => if v = 0 then none else some v
  | none => none

/-- `SizeConstraints` with every zero bound replaced by an unset bound. -/
def normSize (s : SizeConstraints) : SizeConstraints :=
  { revenue_min := zeroSizeToNone s.revenue_min
    revenue_max := zeroSizeToNone s.revenue_max
    employees_min := zeroSizeToNone s.employees_min
    employees_max := zeroSizeToNone s.employees_max
    funding_min := zeroSizeToNone s.funding_min
    funding_max := zeroSizeToNone s.funding_max }

/-- A company with every zero size estimate replaced by an absent one. -/
def zeroCompanySizesToNone (c : EnrichedCompany) : EnrichedCompany :=
  { c with employees_estimate := zeroSizeToNone c.employees_estimate
           revenue_estimate := zeroSizeToNone c.revenue_estimate
           funding_total := zeroSizeToNone c.funding_total }

/-- Python truthiness does not distinguish `0` from `None`. -/
theorem truthyI_zeroSizeToNone (o : Option Int) :
    truthyI (zeroSizeToNone o) = truthyI o := by
  rcases o with - | v
  · rfl
  · by_cases hv : v = 0 <;> simp [zeroSizeToNone, truthyI, hv]

/-- The size-failure block cannot tell a zero company value from an absent
one. -/
theorem dimFailures_zeroValue (v mn mx : Option Int)
    (below above : Int → Int → FailedFilter) :
    HardFilters.dimFailures (zeroSizeToNone v) mn mx below above =
    HardFilters.dimFailures v mn mx below above := by
  rcases v with - | v
  · rfl
  · by_cases hv : v = 0 <;>
      simp [zeroSizeToNone, HardFilters.dimFailures, hv]

/-- The size-failure block cannot tell a zero minimum bound from an unset
one. -/
theorem dimFailures_zeroMin (v mn mx : Option Int)
    (below above : Int → Int → FailedFilter) :
    HardFilters.dimFailures v (zeroSizeToNone mn) mx below above =
    HardFilters.dimFailures v mn mx below above := by
  rcases v with - | v
  · rfl
  · rcases mn with - | m
    · rfl
    · by_cases hm : m = 0 <;>
        simp [zeroSizeToNone, HardFilters.dimFailures, hm]

/-- The size-failure block cannot tell a zero maximum bound from an unset
one. -/
theorem dimFailures_zeroMax (v mn mx : Option Int)
    (below above : Int → Int → FailedFilter) :
    HardFilters.dimFailures v mn (zeroSizeToNone mx) below above =
    HardFilters.dimFailures v mn mx below above := by
  rcases v with - | v
  · rfl
  · rcases mx with - | m
    · rfl
    · by_cases hm : m = 0 <;>
        simp [zeroSizeToNone, HardFilters.dimFailures, hm]

/-- The per-dimension size score cannot tell a zero company value from an
absent one. -/
theorem sizeDimScore_zeroValue (v mn mx : Option Int) :
    Scorer.sizeDimScore (zeroSizeToNone v) mn mx =
    Scorer.sizeDimScore v mn mx := by
  rcases v with - | v
  · rfl
  · by_cases hv : v = 0 <;> simp [zeroSizeToNone, Scorer.sizeDimScore, hv]

/-- The per-dimension size score cannot tell a zero minimum bound from an
unset one. -/
theorem sizeDimScore_zeroMin (v mn mx : Option Int) :
    Scorer.sizeDimScore v (zeroSizeToNone mn) mx =
    Scorer.sizeDimScore v mn mx := by
  rcases mn with - | m
  · rfl
  · by_cases hm : m = 0
    · simp [zeroSizeToNone, Scorer.sizeDimScore, hm, truthyI]
    · simp [zeroSizeToNone, hm]

/-- The per-dimension size score cannot tell a zero maximum bound from an
unset one. -/
theorem sizeDimScore_zeroMax (v mn mx : Option Int) :
    Scorer.sizeDimScore v mn (zeroSizeToNone mx) =
    Scorer.sizeDimScore v mn mx := by
  rcases mx with - | m
  · rfl
  · by_cases hm : m = 0
    · simp [zeroSizeToNone, Scorer.sizeDimScore, hm, truthyI]
    · simp [zeroSizeToNone, hm]

/-- C9: a size value of exactly `0` is treated as absent/unknown by the
core, and a bound of `0` as unconfigured: (a) replacing zero company size
estimates by absent ones changes neither `_check_size_constraints` nor
`_score_size`; (b) replacing zero bounds by unset bounds likewise changes
neither; (c) with `employees_estimate = 0`, `HardFilters.apply` records no
employee-dimension failure even when a positive minimum is configured, and
the employee dimension scores the unknown value `0.5` whenever one of its
bounds is active; (d) a dimension whose bounds are only `0`/unset is
omitted from the size average (its per-dimension score is `none`). -/
theorem zero_size_treated_as_absent (company : EnrichedCompany)
    (criteria : AcquisitionCriteria) :
    (HardFilters.check_size_constraints (zeroCompanySizesToNone company)
        criteria = HardFilters.check_size_constraints company criteria) ∧
    (Scorer.score_size (zeroCompanySizesToNone company) criteria =
      Scorer.score_size company criteria) ∧
    (HardFilters.check_size_constraints company
        { criteria with size := normSize criteria.size } =
      HardFilters.check_size_constraints company criteria) ∧
    (Scorer.score_size company
        { criteria with size := normSize criteria.size } =
      Scorer.score_size company criteria) ∧
    (company.employees_estimate = some 0 →
      ∀ f ∈ (HardFilters.apply company criteria).failed_filters,
        isEmployeeSizeFailure f = false) ∧
    (company.employees_estimate = some 0 →
      (truthyI criteria.size.employees_min = true ∨
       truthyI criteria.size.employees_max = true) →
      Scorer.sizeDimScore company.employees_estimate
        criteria.size.employees_min criteria.size.employees_max =
        some ((1:ℚ)/2)) ∧
    (Scorer.sizeDimScore company.employees_estimate (some 0) (some 0) =
      none) := by
  refine ⟨?_, ?_, ?_, ?_, ?_, ?_, ?_⟩
  · unfold HardFilters.check_size_constraints
    simp only [zeroCompanySizesToNone]
    rw [dimFailures_zeroValue, dimFailures_zeroValue, dimFailures_zeroValue]
  · unfold Scorer.score_size
    simp only [zeroCompanySizesToNone]
    rw [sizeDimScore_zeroValue, sizeDimScore_zeroValue, sizeDimScore_zeroValue]
  · unfold HardFilters.check_size_constraints
    simp only [normSize]
    rw [dimFailures_zeroMin, dimFailures_zeroMax, dimFailures_zeroMin,
      dimFailures_zeroMax, dimFailures_zeroMin, dimFailures_zeroMax]
  · unfold Scorer.score_size
    simp only [normSize]
    rw [sizeDimScore_zeroMin, sizeDimScore_zeroMax, sizeDimScore_zeroMin,
      sizeDimScore_zeroMax, sizeDimScore_zeroMin, sizeDimScore_zeroMax]
  · intro h0 f hf
    rw [apply_failed_filters, h0] at hf
    have hnil : HardFilters.dimFailures (some 0) criteria.size.employees_min
        criteria.size.employees_max .employeesBelowMin .employeesAboveMax =
        [] := rfl
    rw [hnil] at hf
    simp only [List.mem_append, or_assoc, List.not_mem_nil, false_or,
      or_false] at hf
    rcases hf with h | h | h | h
    · rcases mem_dimFailures h with ⟨a, b, rfl⟩ | ⟨a, b, rfl⟩ <;> rfl
    · rcases mem_dimFailures h with ⟨a, b, rfl⟩ | ⟨a, b, rfl⟩ <;> rfl
    · rcases mem_check_geography h with ⟨c, rfl⟩ | ⟨cs, rfl⟩ | ⟨rs, rfl⟩ <;>
        rfl
    · split at h
      · rcases List.mem_singleton.mp h with rfl; rfl
      · cases h
  · intro h0 ht
    have hor : (truthyI criteria.size.employees_min ||
        truthyI criteria.size.employees_max) = true := by
      rcases ht with h | h <;> simp [h]
    rw [h0]
    simp [Scorer.sizeDimScore, hor]
  · rfl

/-- Company/criteria for the C9 witness: zero employees against a positive
configured minimum. -/
def c9wCompany : EnrichedCompany :=
  { minimalCompany "Acme" "test" with employees_estimate := some 0 }

/-- Criteria for the C9 witness. -/
def c9wCriteria : AcquisitionCriteria :=
  { emptyCriteria with
      size := { emptyCriteria.size with employees_min := some 5 } }

/-- Witness for C9 at a concrete zero-valued company. -/
theorem zero_size_treated_as_absent_witness :
    ((HardFilters.apply c9wCompany c9wCriteria).failed_filters.all
      fun f => !isEmployeeSizeFailure f) = true ∧
    Scorer.sizeDimScore c9wCompany.employees_estimate
      c9wCriteria.size.employees_min c9wCriteria.size.employees_max =
      some ((1:ℚ)/2) := by
  refine ⟨?_, ?_⟩
  · have h := (zero_size_treated_as_absent c9wCompany c9wCriteria).2.2.2.2.1
      rfl
    exact List.all_eq_true.mpr fun f hfmem => by simp [h f hfmem]
  · exact (zero_size_treated_as_absent c9wCompany c9wCriteria).2.2.2.2.2.1
      rfl (Or.inl rfl)

/-! ### C10: `keywords_exclude` and `geography.headquarters_only` are dead
to the scoring core -/

/-- C10: the scoring core never reads `criteria.keywords_exclude` or
`criteria.geography.headquarters_only`: two runs of `Scorer.score` (or
`Scorer.score_and_rank`) on criteria differing only in those fields return
identical `ScoredCompany` values.  Both equalities hold definitionally —
no code path of the core projects either field. -/
theorem scoring_ignores_keywords_exclude_and_headquarters_only :
    (∀ (company : EnrichedCompany) (criteria : AcquisitionCriteria)
        (kex : List String) (hq : Bool),
      Scorer.score company
        { criteria with
          keywords_exclude := kex
          geography :=
            { criteria.geography with headquarters_only := hq } } =
      Scorer.score company criteria) ∧
    (∀ (companies : List EnrichedCompany) (criteria : AcquisitionCriteria)
        (kex : List String) (hq : Bool),
      Scorer.score_and_rank companies
        { criteria with
          keywords_exclude := kex
          geography :=
            { criteria.geography with headquarters_only := hq } } =
      Scorer.score_and_rank companies criteria) := by
  refine ⟨?_, ?_⟩
  · intro company criteria kex hq
    obtain ⟨i1, i2, k1, k2, geo, sz, bm, ct, cmp, ps, d, db, w⟩ := criteria
    obtain ⟨gc, gr, gx, gh⟩ := geo
    rfl
  · intro companies criteria kex hq
    obtain ⟨i1, i2, k1, k2, geo, sz, bm, ct, cmp, ps, d, db, w⟩ := criteria
    obtain ⟨gc, gr, gx, gh⟩ := geo
    rfl

/-! ### C7: no occurrence means no keyword evidence, not an error -/

/-- When the keyword has no word-boundary occurrence, `_find_snippet`
returns no snippet and no source. -/
theorem find_snippet_eq_none {content keyword : String}
    (pages : List (String × String))
    (h : findBoundaryMatch (strToLower content).data (strToLower keyword).data =
      none) :
    EvidenceExtractor.find_snippet content keyword pages = (none, none) := by
  simp only [EvidenceExtractor.find_snippet]
  rw [h]

/-- When the keyword has no word-boundary occurrence, no evidence is built
from it. -/
theorem mkEvidence_eq_none {company : EnrichedCompany} {content : String}
    {tag : CriterionTag} {label keyword : String} {conf : ℚ}
    (h : findBoundaryMatch (strToLower content).data (strToLower keyword).data =
      none) :
    EvidenceExtractor.mkEvidence company content tag label keyword conf =
      none := by
  unfold EvidenceExtractor.mkEvidence
  rw [find_snippet_eq_none company.page_contents h]

/-- Every evidence built by `mkEvidence` carries the label it was built
for. -/
theorem mkEvidence_criterion {company : EnrichedCompany} {content : String}
    {tag : CriterionTag} {label keyword : String} {conf : ℚ} {e : Evidence}
    (h : EvidenceExtractor.mkEvidence company content tag label keyword conf =
      some e) :
    e.criterion = ⟨tag, label⟩ := by
  unfold EvidenceExtractor.mkEvidence at h
  split at h
  · split at h
    · cases Option.some.inj h
      rfl
    · cases h
  · cases h

/-- Industry evidence is tagged `industry`. -/
theorem mem_industry_evidence_tag {company : EnrichedCompany}
    {criteria : AcquisitionCriteria} {content : String} {e : Evidence}
    (he : e ∈ EvidenceExtractor.extract_industry_evidence company criteria
      content) :
    e.criterion.tag = .industry := by
  rcases List.mem_filterMap.mp he with ⟨ind, -, hsome⟩
  split at hsome
  · rw [mkEvidence_criterion hsome]
  · cases hsome

/-- Business-model evidence is tagged `business_model`. -/
theorem mem_bm_evidence_tag {company : EnrichedCompany}
    {criteria : AcquisitionCriteria} {content : String} {e : Evidence}
    (he : e ∈ EvidenceExtractor.extract_business_model_evidence company
      criteria content) :
    e.criterion.tag = .business_model := by
  unfold EvidenceExtractor.extract_business_model_evidence at he
  cases hbm : company.business_model with
  | none => rw [hbm] at he; cases he
  | some bm =>
    rw [hbm] at he
    dsimp only at he
    split at he
    · cases he
    · split at he
      · cases he
      · rcases hfs : (EvidenceExtractor.bmKeywords bm).findSome? fun keyword =>
          EvidenceExtractor.mkEvidence company content .business_model bm
            keyword company.business_model_confidence with - | ev
        · rw [hfs] at he; cases he
        · rw [hfs] at he
          rcases List.mem_singleton.mp he with rfl
          rcases List.exists_of_findSome?_eq_some hfs with ⟨kw2, -, hsome⟩
          rw [mkEvidence_criterion hsome]

/-- Customer-type evidence is tagged `customer_type`. -/
theorem mem_customer_evidence_tag {company : EnrichedCompany}
    {criteria : AcquisitionCriteria} {content : String} {e : Evidence}
    (he : e ∈ EvidenceExtractor.extract_customer_type_evidence company
      criteria content) :
    e.criterion.tag = .customer_type := by
  rcases List.mem_filterMap.mp he with ⟨ct, -, hsome⟩
  split at hsome
  · rcases List.exists_of_findSome?_eq_some hsome with ⟨kw2, -, hsome2⟩
    rw [mkEvidence_criterion hsome2]
  · cases hsome

/-- Compliance evidence is tagged `compliance`. -/
theorem mem_compliance_evidence_tag {company : EnrichedCompany}
    {criteria : AcquisitionCriteria} {content : String} {e : Evidence}
    (he : e ∈ EvidenceExtractor.extract_compliance_evidence company criteria
      content) :
    e.criterion.tag = .compliance := by
  rcases List.mem_filterMap.mp he with ⟨tag, -, hsome⟩
  split at hsome
  · rw [mkEvidence_criterion hsome]
  · cases hsome

/-- Signal evidence is tagged `signal`. -/
theorem mem_signal_evidence_tag {company : EnrichedCompany}
    {criteria : AcquisitionCriteria} {content : String} {e : Evidence}
    (he : e ∈ EvidenceExtractor.extract_signal_evidence company criteria
      content) :
    e.criterion.tag = .signal := by
  rcases List.mem_filterMap.mp he with ⟨sig, -, hsome⟩
  split at hsome
  · rcases List.exists_of_findSome?_eq_some hsome with ⟨kw2, -, hsome2⟩
    rw [mkEvidence_criterion hsome2]
  · cases hsome

/-- C7: if a keyword has no word-boundary, case-insensitive occurrence in
the company's concatenated page text, `extract_evidence` emits no evidence
entry labelled `keyword:kw` — and, the extractor being a total function,
absence of evidence is a result, not an error. -/
theorem no_occurrence_no_keyword_evidence
    (company : EnrichedCompany) (criteria : AcquisitionCriteria)
    (kw : String)
    (h : findBoundaryMatch
      (strToLower (EvidenceExtractor.allContent company)).data
      (strToLower kw).data = none) :
    ∀ e ∈ EvidenceExtractor.extract_evidence company criteria,
      e.criterion ≠ ⟨.keyword, kw⟩ := by
  intro e he hc
  unfold EvidenceExtractor.extract_evidence at he
  simp only [List.mem_append, or_assoc] at he
  rcases he with h1 | h2 | h3 | h4 | h5 | h6
  · have := mem_industry_evidence_tag h1
    rw [hc] at this
    cases this
  · rcases List.mem_filterMap.mp h2 with ⟨kw2, -, hsome⟩
    have hcrit := mkEvidence_criterion hsome
    rw [hc] at hcrit
    have hkw : kw = kw2 := congrArg Criterion.value hcrit
    rw [← hkw] at hsome
    rw [mkEvidence_eq_none h] at hsome
    cases hsome
  · have := mem_bm_evidence_tag h3
    rw [hc] at this
    cases this
  · have := mem_customer_evidence_tag h4
    rw [hc] at this
    cases this
  · have := mem_compliance_evidence_tag h5
    rw [hc] at this
    cases this
  · have := mem_signal_evidence_tag h6
    rw [hc] at this
    cases this

/-- Company for the C7 witness: one page mentioning software, no mention
of the sought keyword. -/
def c7Company : EnrichedCompany :=
  { minimalCompany "Acme" "test" with
      page_contents := [("https://acme.example/about",
        "We build accounting software for dentists.")] }

/-- Criteria for the C7 witness: looks for the keyword `cannabis`. -/
def c7Criteria : AcquisitionCriteria :=
  { emptyCriteria with keywords_include := ["cannabis"] }

/-- Witness for C7: no `keyword:cannabis` evidence is emitted for a page
that never mentions cannabis (and extraction still returns a result). -/
theorem no_occurrence_no_keyword_evidence_witness :
    ((EvidenceExtractor.extract_evidence c7Company c7Criteria).all
      fun e => e.criterion ≠ ⟨.keyword, "cannabis"⟩) = true := by
  have h := no_occurrence_no_keyword_evidence c7Company c7Criteria "cannabis"
    (by decide)
  exact List.all_eq_true.mpr fun e hmem => by
    simpa using h e hmem

/-! ### C6: snippet window, boundary markers, and the length cap -/

/-- String append acts on the character lists. -/
theorem strAppend_data (a b : String) : (a ++ b).data = a.data ++ b.data :=
  rfl

/-- Appending the empty string is the identity. -/
theorem strAppend_empty (s : String) : s ++ "" = s := by
  cases s with
  | mk data =>
    show String.mk (data ++ []) = String.mk data
    rw [List.append_nil]

/-- Length of an appended string. -/
theorem strLength_append (a b : String) :
    (a ++ b).length = a.length + b.length := by
  show (a.data ++ b.data).length = a.data.length + b.data.length
  exact List.length_append a.data b.data

/-- The snippet construction of the amended claim, from the spec's words:
locate the first word-boundary occurrence of the keyword
(case-insensitive), take the window of 80 characters before and after the
match, strip surrounding whitespace, mark a cut at either content boundary
with `"..."`, and — when the marked window exceeds 200 characters — cut it
to its first 200 characters and append a trailing `"..."`. -/
def snippetSpec (content keyword : String) : Option String :=
  match findBoundaryMatch (strToLower content).data
      (strToLower keyword).data with
  | none => none
  | some i =>
    let kLen := (strToLower keyword).data.length
    let wStart := i - 80
    let wStop := min content.data.length (i + kLen + 80)
    let window := strTrim (String.mk
      ((content.data.drop wStart).take (wStop - wStart)))
    let marked :=
      (if wStart > 0 then "..." else "") ++ window ++
      (if wStop < content.data.length then "..." else "")
    some (if marked.length > EvidenceExtractor.MAX_SNIPPET_LENGTH then
      String.mk (marked.data.take EvidenceExtractor.MAX_SNIPPET_LENGTH) ++
        "..."
      else marked)

/-- `_find_snippet` computes exactly the construction of `snippetSpec`. -/
theorem find_snippet_fst_eq_snippetSpec (content keyword : String)
    (pages : List (String × String)) :
    (EvidenceExtractor.find_snippet content keyword pages).fst =
      snippetSpec content keyword := by
  unfold EvidenceExtractor.find_snippet snippetSpec
  dsimp only
  cases hm : findBoundaryMatch (strToLower content).data
      (strToLower keyword).data with
  | none => rfl
  | some i =>
    dsimp only
    have hs2 :
        (if i - 80 > 0 then
          "..." ++ strTrim (String.mk ((content.data.drop (i - 80)).take
            (min content.data.length
              (i + (strToLower keyword).data.length + 80) - (i - 80))))
         else strTrim (String.mk ((content.data.drop (i - 80)).take
            (min content.data.length
              (i + (strToLower keyword).data.length + 80) - (i - 80))))) =
        (if i - 80 > 0 then "..." else "") ++
          strTrim (String.mk ((content.data.drop (i - 80)).take
            (min content.data.length
              (i + (strToLower keyword).data.length + 80) - (i - 80)))) := by
      split <;> rfl
    rw [hs2]
    set w := (if i - 80 > 0 then "..." else "") ++
      strTrim (String.mk ((content.data.drop (i - 80)).take
        (min content.data.length
          (i + (strToLower keyword).data.length + 80) - (i - 80)))) with hw
    by_cases hstop : min content.data.length
        (i + (strToLower keyword).data.length + 80) < content.data.length
    · rw [if_pos hstop, if_pos hstop]
    · rw [if_neg hstop, if_neg hstop, strAppend_empty]

/-- The cap step never yields more than 203 characters: at most 200
characters of content plus a 3-character trailing ellipsis. -/
theorem capped_length_le (m : String) :
    (if m.length > EvidenceExtractor.MAX_SNIPPET_LENGTH then
      String.mk (m.data.take EvidenceExtractor.MAX_SNIPPET_LENGTH) ++ "..."
     else m).length ≤ 203 := by
  by_cases h : m.length > EvidenceExtractor.MAX_SNIPPET_LENGTH
  · rw [if_pos h]
    rw [strLength_append]
    have htake : (String.mk
        (m.data.take EvidenceExtractor.MAX_SNIPPET_LENGTH)).length =
        min EvidenceExtractor.MAX_SNIPPET_LENGTH m.data.length := by
      show (m.data.take _).length = _
      exact List.length_take _ _
    rw [htake]
    have hm : m.length = m.data.length := rfl
    simp only [EvidenceExtractor.MAX_SNIPPET_LENGTH] at h ⊢
    rw [hm] at h
    have : ("..." : String).length = 3 := rfl
    omega
  · rw [if_neg h]
    simp only [EvidenceExtractor.MAX_SNIPPET_LENGTH, Nat.not_lt] at h
    omega

/-- Any snippet produced by the spec construction is at most 203
characters long. -/
theorem snippetSpec_length_le (content keyword : String) :
    ∀ s, snippetSpec content keyword = some s → s.length ≤ 203 := by
  unfold snippetSpec
  cases hm : findBoundaryMatch (strToLower content).data
      (strToLower keyword).data with
  | none => intro s h; cases h
  | some i =>
    dsimp only
    intro s h
    rcases Option.some.inj h with rfl
    exact capped_length_le _

/-- C6 (amended): every snippet produced by `_find_snippet` is the
whitespace-stripped window of 80 characters before and after the first
word-boundary occurrence of the keyword, prefixed/suffixed with `"..."`
when the window was cut at a content boundary, and capped at 203
characters in total: when the marked window exceeds 200 characters it is
cut to its first 200 characters and a trailing `"..."` is appended.  (The
original claim's total cap of 200 characters is falsified by the
counterexample, where the emitted snippet has 203 characters.) -/
theorem find_snippet_window_and_cap (content keyword : String)
    (pages : List (String × String)) :
    (EvidenceExtractor.find_snippet content keyword pages).fst =
      snippetSpec content keyword ∧
    (∀ s, (EvidenceExtractor.find_snippet content keyword pages).fst =
      some s → s.length ≤ 203) := by
  have h1 := find_snippet_fst_eq_snippetSpec content keyword pages
  refine ⟨h1, fun s hs => snippetSpec_length_le content keyword s ?_⟩
  rw [← h1]
  exact hs

/-- Content for the C6 counterexample: 85 dots, 40 letters, 85 dots. -/
def c6Content : String :=
  String.mk (List.replicate 85 '.' ++
    (List.replicate 40 'a' ++ List.replicate 85 '.'))

/-- Keyword for the C6 counterexample: the 40-letter word. -/
def c6Keyword : String := String.mk (List.replicate 40 'a')

set_option maxRecDepth 100000 in
/-- C6 counterexample: the snippet built around the 40-character keyword is
203 characters long — the window (80 + 40 + 80 = 200 characters after
stripping) gains two boundary ellipses, exceeds 200, is cut back to 200
and receives a trailing ellipsis, for a total of 203 > 200.  This
falsifies the original claim's "total length capped at 200 characters". -/
theorem find_snippet_cap_counterexample :
    ((EvidenceExtractor.find_snippet c6Content c6Keyword []).fst.map
      String.length) = some 203 := by
  decide

/-- Witness for C6 (amended) at the concrete 203-character snippet. -/
theorem find_snippet_window_and_cap_witness :
    (((EvidenceExtractor.find_snippet c6Content c6Keyword []).fst.map
      String.length).getD 0) ≤ 203 := by
  have h := (find_snippet_window_and_cap c6Content c6Keyword []).2
  cases hs : (EvidenceExtractor.find_snippet c6Content c6Keyword []).fst with
  | none => simp [hs]
  | some s =>
    have := h s hs
    simp [hs, this]

/-! ### C4: ranking is a stable descending sort with contiguous ranks -/

/-- The sort key of `score_and_rank`: `(fit_score, confidence)`. -/
def keyOf (c : ScoredCompany) : ℚ × ℚ := (c.fit_score, c.confidence)

/-- Descending lexicographic comparison of sort keys: `k1` may precede
`k2`. -/
def keyGE (k1 k2 : ℚ × ℚ) : Prop :=
  k2.1 < k1.1 ∨ (k2.1 = k1.1 ∧ k2.2 ≤ k1.2)

instance (k1 k2 : ℚ × ℚ) : Decidable (keyGE k1 k2) :=
  inferInstanceAs (Decidable (k2.1 < k1.1 ∨ (k2.1 = k1.1 ∧ k2.2 ≤ k1.2)))

/-- `rankLE` is the decidable reflection of `keyGE` on the keys. -/
theorem rankLE_eq (a b : ScoredCompany) :
    Scorer.rankLE a b = decide (keyGE (keyOf a) (keyOf b)) := rfl

/-- `rankLE` is transitive. -/
theorem rankLE_trans (a b c : ScoredCompany) :
    Scorer.rankLE a b → Scorer.rankLE b c → Scorer.rankLE a c := by
  simp only [Scorer.rankLE, decide_eq_true_eq]
  rintro (h1 | ⟨h1e, h1c⟩) (h2 | ⟨h2e, h2c⟩)
  · exact Or.inl (lt_trans h2 h1)
  · exact Or.inl (h2e ▸ h1)
  · exact Or.inl (h1e ▸ h2)
  · exact Or.inr ⟨h2e.trans h1e, le_trans h2c h1c⟩

/-- `rankLE` is total. -/
theorem rankLE_total (a b : ScoredCompany) :
    Scorer.rankLE a b || Scorer.rankLE b a := by
  simp only [Scorer.rankLE, Bool.or_eq_true, decide_eq_true_eq]
  rcases lt_trichotomy b.fit_score a.fit_score with h | h | h
  · exact Or.inl (Or.inl h)
  · rcases le_total b.confidence a.confidence with hc | hc
    · exact Or.inl (Or.inr ⟨h, hc⟩)
    · exact Or.inr (Or.inr ⟨h.symm, hc⟩)
  · exact Or.inr (Or.inl h)

/-- Elements with equal keys compare `rankLE` in either order. -/
theorem rankLE_of_keyOf_eq {a b : ScoredCompany}
    (h : keyOf a = keyOf b) : Scorer.rankLE a b = true := by
  simp only [Scorer.rankLE, decide_eq_true_eq]
  have h1 : a.fit_score = b.fit_score := congrArg Prod.fst h
  have h2 : a.confidence = b.confidence := congrArg Prod.snd h
  exact Or.inr ⟨h1.symm, h2.ge⟩

/-- Forgetting the rank assigned by `score_and_rank`. -/
def eraseRank (c : ScoredCompany) : ScoredCompany := { c with rank := none }

/-- `Scorer.score` leaves `rank` unassigned. -/
theorem score_rank_none (company : EnrichedCompany)
    (criteria : AcquisitionCriteria) :
    (Scorer.score company criteria).rank = none := by
  unfold Scorer.score
  dsimp only
  split <;> rfl

/-- Shifting `range'` by one. -/
theorem map_add_one_range' : ∀ (s n : Nat),
    (List.range' s n).map (fun i => i + 1) = List.range' (s + 1) n
  | _, 0 => rfl
  | s, n + 1 => by
    rw [List.range'_succ, List.range'_succ, List.map_cons,
      map_add_one_range' (s + 1) n]

/-- Over the repaired model (see `EnrichedCompany` on the undeclared
attribute reads of C1): `score_and_rank` returns a list of the same length
as its input (empty for empty input), sorted by `(fit_score, confidence)`
descending with ties on `fit_score` broken by confidence descending;
companies tied on both keys retain their original relative order (the sort
is stable); and the assigned ranks form the contiguous sequence `1..N`. -/
theorem score_and_rank_sorted_stable_ranked
    (companies : List EnrichedCompany) (criteria : AcquisitionCriteria) :
    (Scorer.score_and_rank companies criteria).length = companies.length ∧
    ((Scorer.score_and_rank companies criteria).map keyOf).Pairwise keyGE ∧
    (∀ k : ℚ × ℚ,
      ((Scorer.score_and_rank companies criteria).map eraseRank).filter
          (fun c => decide (keyOf c = k)) =
        (companies.map fun c => Scorer.score c criteria).filter
          (fun c => decide (keyOf c = k))) ∧
    (Scorer.score_and_rank companies criteria).map (·.rank) =
      (List.range' 1 companies.length).map some := by
  have hsr : Scorer.score_and_rank companies criteria =
      ((companies.map fun c => Scorer.score c criteria).mergeSort
        Scorer.rankLE).mapIdx fun i c => { c with rank := some (i + 1) } :=
    rfl
  set scored := companies.map fun c => Scorer.score c criteria with hscored
  set sorted := scored.mergeSort Scorer.rankLE with hsorted
  have hlen : sorted.length = companies.length := by
    rw [hsorted, List.length_mergeSort, hscored, List.length_map]
  refine ⟨?_, ?_, ?_, ?_⟩
  · rw [hsr, List.length_mapIdx, hlen]
  · rw [hsr, List.mapIdx_eq_enum_map, List.map_map]
    have h1 : (keyOf ∘ Function.uncurry fun (i : Nat) (c : ScoredCompany) =>
        { c with rank := some (i + 1) }) = (keyOf ∘ Prod.snd) :=
      funext fun p => rfl
    rw [h1, ← List.map_map, List.enum_eq_enumFrom, List.enumFrom_map_snd]
    rw [List.pairwise_map]
    have hpw : sorted.Pairwise (fun a b => Scorer.rankLE a b) :=
      List.sorted_mergeSort rankLE_trans rankLE_total scored
    exact hpw.imp fun h => by
      rw [rankLE_eq, decide_eq_true_eq] at h
      exact h
  · intro k
    have herase : (sorted.mapIdx fun i c =>
        { c with rank := some (i + 1) }).map eraseRank = sorted := by
      rw [List.mapIdx_eq_enum_map, List.map_map]
      have h1 : (eraseRank ∘ Function.uncurry
          fun (i : Nat) (c : ScoredCompany) =>
            { c with rank := some (i + 1) }) = (eraseRank ∘ Prod.snd) :=
        funext fun p => rfl
      rw [h1, ← List.map_map, List.enum_eq_enumFrom, List.enumFrom_map_snd]
      have hnone : ∀ c ∈ sorted, eraseRank c = c := by
        intro c hc
        have hmem : c ∈ scored := List.mem_mergeSort.mp hc
        rcases List.mem_map.mp hmem with ⟨c0, -, rfl⟩
        have hr := score_rank_none c0 criteria
        cases hsc : Scorer.score c0 criteria with
        | mk comp fit conf rank pf ff dqf dqr ev ms sb =>
          rw [hsc] at hr
          cases hr
          rfl
      calc sorted.map eraseRank = sorted.map id :=
            List.map_congr_left hnone
        _ = sorted := List.map_id sorted
    rw [hsr, herase]
    set p := fun c : ScoredCompany => decide (keyOf c = k) with hp
    have hc_pw : (scored.filter p).Pairwise
        (fun a b => Scorer.rankLE a b) := by
      apply List.pairwise_of_forall_mem_list
      intro a ha b hb
      have hka : keyOf a = k := by
        have := (List.mem_filter.mp ha).2
        rw [hp] at this
        exact of_decide_eq_true this
      have hkb : keyOf b = k := by
        have := (List.mem_filter.mp hb).2
        rw [hp] at this
        exact of_decide_eq_true this
      exact rankLE_of_keyOf_eq (hka.trans hkb.symm)
    have hc_sub : List.Sublist (scored.filter p) sorted :=
      List.sublist_mergeSort rankLE_trans rankLE_total hc_pw
        (List.filter_sublist scored)
    have h1 : (scored.filter p).filter p = scored.filter p :=
      List.filter_eq_self.mpr fun a ha => (List.mem_filter.mp ha).2
    have h2 : List.Sublist (scored.filter p) (sorted.filter p) := by
      rw [← h1]
      exact hc_sub.filter p
    have h3 : List.Perm (sorted.filter p) (scored.filter p) :=
      (List.mergeSort_perm scored Scorer.rankLE).filter p
    exact (h2.eq_of_length h3.length_eq.symm).symm
  · rw [hsr, List.mapIdx_eq_enum_map, List.map_map]
    have h1 : ((fun c : ScoredCompany => c.rank) ∘ Function.uncurry
        fun (i : Nat) (c : ScoredCompany) =>
          { c with rank := some (i + 1) }) =
        ((fun i : Nat => some (i + 1)) ∘ Prod.fst) := funext fun p => rfl
    rw [h1, ← List.map_map, List.enum_eq_enumFrom, List.enumFrom_map_fst,
      hlen]
    rw [show (fun i : Nat => some (i + 1)) =
      (some ∘ (fun i : Nat => i + 1)) from rfl]
    rw [← List.map_map, map_add_one_range']

/-! ### C2 and C4: the crash of C1 blocks the claimed outputs -/

/-- Minimal companies for evaluating the ranking pipeline. -/
def c4aCompany : EnrichedCompany := minimalCompany "Alpha" "test"

/-- Second minimal company for evaluating the ranking pipeline. -/
def c4bCompany : EnrichedCompany := minimalCompany "Beta" "test"

/-- C2: for a company whose `disqualifiers_detected` meets
`criteria.dealbreakers`, the claim — and the repository's own
`tests/test_scoring.py::test_score_disqualified` — say `Scorer.score`
returns `is_disqualified = true` and `fit_score = 0.0`.  The code cannot
return it: every call raises `AttributeError` at scorer.py line 104 first,
because the attribute read there is not declared on the pydantic
`EnrichedCompany` (first conjunct, over the embedded field lists; the bug
recorded under C1).  The second conjunct evaluates the repaired model —
which declares exactly the missing fields — at that failing input, showing
the disqualification override described by the claim is what the code
computes once the reads are repaired: the claim is right and the code is
wrong. -/
theorem score_dealbreaker_blocked_by_undeclared_reads :
    ("is_cannabis_industry" ∈ scorerCompanyAttributeReads ∧
      "is_cannabis_industry" ∉ enrichedCompanyDeclaredFields) ∧
    ((Scorer.score c2Company c2Criteria).is_disqualified = true ∧
      (Scorer.score c2Company c2Criteria).fit_score = 0) := by
  refine ⟨by decide, ?_⟩
  exact score_dealbreaker_disqualifies c2Company c2Criteria
    ⟨"gambling", by simp [c2Company, minimalCompany],
      by simp [c2Criteria, emptyCriteria]⟩

/-- C4: `score_and_rank` calls `Scorer.score` on each company, so on any
nonempty input the first call raises `AttributeError` at scorer.py line
104 (first conjunct, over the embedded field lists; the bug recorded under
C1) and the sorted, ranked list the claim — and
`tests/test_scoring.py::test_rank_companies` — describe is never returned.
The second conjunct evaluates the repaired model on a concrete two-company
batch, exhibiting the contiguous 1-based ranks the claim requires once the
reads are repaired: the claim is right and the code is wrong. -/
theorem score_and_rank_blocked_by_undeclared_reads :
    ("cannabis_confidence" ∈ scorerCompanyAttributeReads ∧
      "cannabis_confidence" ∉ enrichedCompanyDeclaredFields) ∧
    (Scorer.score_and_rank [c4aCompany, c4bCompany] emptyCriteria).map
      (·.rank) = [some 1, some 2] := by
  refine ⟨by decide, ?_⟩
  have h := (score_and_rank_sorted_stable_ranked [c4aCompany, c4bCompany]
    emptyCriteria).2.2.2
  rw [h]
  decide
